import Mathlib

/-!
# A shallow embedding of the confy load/store engine

This file embeds the core of the `confy` crate (`src/lib.rs`, `src/utils.rs`):
a persistence layer that loads and stores typed configuration values at
filesystem paths via a pluggable serialization codec.

Modelling choices:
* A filesystem path is a list of components under the root; `[]` is the root
  (the only path with no parent, matching `Path::parent` on `"/"`).
* The filesystem is a state record: an association list of file contents
  (byte lists), a list of existing directories, an association list of
  permission modes, plus fault oracles for each I/O phase (open-for-read,
  read-to-string, create_dir_all, open-for-write, set_permissions,
  write_all).  Each oracle makes the corresponding syscall fail, letting us
  state which faults each operation surfaces or recovers from.
* Each operation is state-passing: it returns `Except ConfyError α × FS`, so
  the resulting filesystem is observable even on the error paths.
* The serde/toml codec is external to the crate; operations are parametric
  in a `Codec` record, exactly as the Rust functions are generic in
  `T: Serialize + DeserializeOwned`.  A concrete model codec (decimal ASCII
  for `Nat`) instantiates it for witnesses, and a never-succeeding codec
  mirrors the `CannotSerialize` type of the crate's tests.
-/

/-- A filesystem path, as its list of components under the root.
`[]` is the root. -/
abbrev FsPath := List String

/-- `Path::parent`: the root has no parent; any other path drops its last
component. -/
def FsPath.parent : FsPath → Option FsPath
  | [] => none
  | p => some p.dropLast

/-- Render a path for error messages (stands in for `format!("{path:?}")`). -/
def FsPath.render (p : FsPath) : String := "/" ++ String.intercalate "/" p

/-- Kinds of I/O errors: `std::io::ErrorKind::NotFound` is the one the load
branch distinguishes; everything else is collapsed into two further kinds. -/
inductive IoErr where
  | notFound
  | permissionDenied
  | other
deriving DecidableEq, Repr

/-- Look up the first binding of `p` in an association list. -/
def assocFind {β : Type} (p : FsPath) : List (FsPath × β) → Option β
  | [] => none
  | (q, v) :: rest => if q = p then some v else assocFind p rest

/-- Bind `p` to `v`, shadowing any earlier binding. -/
def assocSet {β : Type} (p : FsPath) (v : β) (l : List (FsPath × β)) :
    List (FsPath × β) :=
  (p, v) :: l

/-- The filesystem state plus fault-injection oracles for each I/O phase. -/
structure FS where
  /-- Contents of existing files, as byte lists. -/
  files : List (FsPath × List Nat)
  /-- Existing directories. -/
  dirs : List FsPath
  /-- Permission modes that have been applied to files. -/
  perms : List (FsPath × Nat)
  /-- Fault for `File::open` (read) on an existing file; `none` means the
  open succeeds. -/
  openReadErr : FsPath → Option IoErr
  /-- Fault for `read_to_string` on an opened file. -/
  readFileErr : FsPath → Bool
  /-- Fault for `fs::create_dir_all`. -/
  mkdirErr : FsPath → Bool
  /-- Fault for `OpenOptions::open` (write/create/truncate). -/
  openWriteErr : FsPath → Bool
  /-- Fault for `File::set_permissions`. -/
  setPermsErr : FsPath → Bool
  /-- Fault for `write_all`. -/
  writeAllErr : FsPath → Bool

/-- `File::open` for reading: a missing file reports `NotFound`; on a present
file the fault oracle may fire, otherwise the contents are available. -/
def FS.openRead (fs : FS) (p : FsPath) : Except IoErr (List Nat) :=
  match assocFind p fs.files with
  | none => .error .notFound
  | some content =>
    match fs.openReadErr p with
    | some k => .error k
    | none => .ok content

/-- `CheckedStringRead::get_string` (from `utils.rs`): `read_to_string` on the
opened handle, which can fail independently of the open. -/
def FS.getString (fs : FS) (p : FsPath) (content : List Nat) :
    Except IoErr (List Nat) :=
  if fs.readFileErr p then .error .other else .ok content

/-- `fs::create_dir_all`: recursively creates the directory and all its
ancestors (all the initial segments of the component list). -/
def FS.createDirAll (fs : FS) (d : FsPath) : Except IoErr Unit × FS :=
  if fs.mkdirErr d then (.error .other, fs)
  else (.ok (), { fs with dirs := d.inits ++ fs.dirs })

/-- `OpenOptions::new().write(true).create(true).truncate(true).open(path)`:
on success the file exists and its contents are truncated to empty. -/
def FS.openWriteTruncate (fs : FS) (p : FsPath) : Except IoErr Unit × FS :=
  if fs.openWriteErr p then (.error .other, fs)
  else (.ok (), { fs with files := assocSet p [] fs.files })

/-- `File::set_permissions` on the opened handle. -/
def FS.setPermissions (fs : FS) (p : FsPath) (mode : Nat) :
    Except IoErr Unit × FS :=
  if fs.setPermsErr p then (.error .other, fs)
  else (.ok (), { fs with perms := assocSet p mode fs.perms })

/-- `write_all` of the encoded bytes to the (already truncated) handle: on
fault the file keeps its truncated (empty) contents. -/
def FS.writeAll (fs : FS) (p : FsPath) (bytes : List Nat) :
    Except IoErr Unit × FS :=
  if fs.writeAllErr p then (.error .other, fs)
  else (.ok (), { fs with files := assocSet p bytes fs.files })

/-- The `ConfyError` enumeration of `lib.rs`, with the default `toml_conf`
feature active (so the codec error variants are the TOML ones).  Codec error
payloads are their messages. -/
inductive ConfyError where
  | BadTomlData (e : String)
  | DirectoryCreationFailed (e : IoErr)
  | GeneralLoadError (e : IoErr)
  | BadConfigDirectory (s : String)
  | SerializeTomlError (e : String)
  | WriteConfigurationFileError (e : IoErr)
  | ReadConfigurationFileError (e : IoErr)
  | OpenConfigurationFileError (e : IoErr)
  | SetPermissionsFileError (e : IoErr)
deriving DecidableEq, Repr

/-- The pluggable serialization capability: the Rust functions are generic in
`T: Serialize + DeserializeOwned`; with the `toml_conf` feature the encode
side is `toml::to_string_pretty` and the decode side `toml::from_str`.
Documents are byte lists; a codec call either produces a result or fails
with a message. -/
structure Codec (T : Type) where
  encode : T → Except String (List Nat)
  decode : List Nat → Except String T

/-- The file extension fixed by the compiled-in codec (`toml_conf`). -/
def EXTENSION : String := "toml"

/-- `do_store` (`lib.rs:419`): resolve the parent (failing with
`BadConfigDirectory` for a root), recursively create it, encode the value,
then open-with-truncate, optionally set permissions, and write the bytes,
mapping each phase's fault to its own error variant. -/
def do_store {T : Type} (c : Codec T) (p : FsPath) (cfg : T)
    (perms : Option Nat) (fs : FS) : Except ConfyError Unit × FS :=
  match p.parent with
  | none =>
    (.error (.BadConfigDirectory (p.render ++ " is a root or prefix")), fs)
  | some config_dir =>
    match fs.createDirAll config_dir with
    | (.error e, fs1) => (.error (.DirectoryCreationFailed e), fs1)
    | (.ok _, fs1) =>
      match c.encode cfg with
      | .error e => (.error (.SerializeTomlError e), fs1)
      | .ok s =>
        match fs1.openWriteTruncate p with
        | (.error e, fs2) => (.error (.OpenConfigurationFileError e), fs2)
        | (.ok _, fs2) =>
          match perms with
          | some mode =>
            match fs2.setPermissions p mode with
            | (.error e, fs3) => (.error (.SetPermissionsFileError e), fs3)
            | (.ok _, fs3) =>
              match fs3.writeAll p s with
              | (.error e, fs4) =>
                (.error (.WriteConfigurationFileError e), fs4)
              | (.ok _, fs4) => (.ok (), fs4)
          | none =>
            match fs2.writeAll p s with
            | (.error e, fs4) => (.error (.WriteConfigurationFileError e), fs4)
            | (.ok _, fs4) => (.ok (), fs4)

/-- `store_path` (`lib.rs:400`): `do_store` with no permission spec. -/
def store_path {T : Type} (c : Codec T) (p : FsPath) (cfg : T) (fs : FS) :
    Except ConfyError Unit × FS :=
  do_store c p cfg none fs

/-- `store_path_perms` (`lib.rs:411`): `do_store` with a permission spec. -/
def store_path_perms {T : Type} (c : Codec T) (p : FsPath) (cfg : T)
    (mode : Nat) (fs : FS) : Except ConfyError Unit × FS :=
  do_store c p cfg (some mode) fs

/-- `load_path` (`lib.rs:247`): open for reading; on success read the full
contents and decode (decode faults become `BadTomlData`); on `NotFound`
create the missing parents, store `T::default()` and return it; any other
open fault becomes `GeneralLoadError`. -/
def load_path {T : Type} (c : Codec T) (dflt : T) (p : FsPath) (fs : FS) :
    Except ConfyError T × FS :=
  match fs.openRead p with
  | .ok content =>
    match fs.getString p content with
    | .error e => (.error (.ReadConfigurationFileError e), fs)
    | .ok s =>
      match c.decode s with
      | .error e => (.error (.BadTomlData e), fs)
      | .ok v => (.ok v, fs)
  | .error .notFound =>
    match p.parent with
    | some parent =>
      match fs.createDirAll parent with
      | (.error e, fs1) => (.error (.DirectoryCreationFailed e), fs1)
      | (.ok _, fs1) =>
        match store_path c p dflt fs1 with
        | (.error e, fs2) => (.error e, fs2)
        | (.ok _, fs2) => (.ok dflt, fs2)
    | none =>
      match store_path c p dflt fs with
      | (.error e, fs2) => (.error e, fs2)
      | (.ok _, fs2) => (.ok dflt, fs2)
  | .error e => (.error (.GeneralLoadError e), fs)

/-- The `load_value` closure of `load_or_else` (`lib.rs:300`): compute the
fallback, create the missing parents, persist it via `store_path`, and
return it. -/
def load_value {T : Type} (c : Codec T) (p : FsPath) (op : Unit → T)
    (fs : FS) : Except ConfyError T × FS :=
  let cfg := op ()
  match p.parent with
  | some parent =>
    match fs.createDirAll parent with
    | (.error e, fs1) => (.error (.DirectoryCreationFailed e), fs1)
    | (.ok _, fs1) =>
      match store_path c p cfg fs1 with
      | (.error e, fs2) => (.error e, fs2)
      | (.ok _, fs2) => (.ok cfg, fs2)
  | none =>
    match store_path c p cfg fs with
    | (.error e, fs2) => (.error e, fs2)
    | (.ok _, fs2) => (.ok cfg, fs2)

/-- `load_or_else` (`lib.rs:294`): like `load_path`, but with a caller
fallback in place of `T::default()`, and `load_from_file().or_else(|_|
load_value())`: any failure of the read-and-decode closure on an opened
file — not only decode failure — falls back to `load_value`.  An open fault
other than `NotFound` is still surfaced as `GeneralLoadError`. -/
def load_or_else {T : Type} (c : Codec T) (p : FsPath) (op : Unit → T)
    (fs : FS) : Except ConfyError T × FS :=
  match fs.openRead p with
  | .ok content =>
    let load_from_file : Except ConfyError T :=
      match fs.getString p content with
      | .error e => .error (.ReadConfigurationFileError e)
      | .ok s =>
        match c.decode s with
        | .error e => .error (.BadTomlData e)
        | .ok v => .ok v
    match load_from_file with
    | .ok v => (.ok v, fs)
    | .error _ => load_value c p op fs
  | .error .notFound => load_value c p op fs
  | .error e => (.error (.GeneralLoadError e), fs)

/-- `get_configuration_file_path` (`lib.rs:467`): default the config name to
`"default-config"`, resolve the project's configuration directory through
the external `directories::ProjectDirs` collaborator (abstracted as a
function returning `none` when no base directory is determinable or the
directory is not valid Unicode — both collapse to `BadConfigDirectory`),
and append `"{config_name}.{EXTENSION}"`. -/
def get_configuration_file_path (resolve : String → Option FsPath)
    (app_name : String) (config_name : Option String) :
    Except ConfyError FsPath :=
  let config_name := config_name.getD "default-config"
  match resolve app_name with
  | none =>
    .error (.BadConfigDirectory "could not determine home directory path")
  | some config_dir => .ok (config_dir ++ [config_name ++ "." ++ EXTENSION])

/-- `load` (`lib.rs:230`): resolve the path, then `load_path`. -/
def load {T : Type} (resolve : String → Option FsPath) (c : Codec T)
    (dflt : T) (app_name : String) (config_name : Option String) (fs : FS) :
    Except ConfyError T × FS :=
  match get_configuration_file_path resolve app_name config_name with
  | .error e => (.error e, fs)
  | .ok p => load_path c dflt p fs

/-- `store` (`lib.rs:367`): resolve the path, then `store_path`. -/
def store {T : Type} (resolve : String → Option FsPath) (c : Codec T)
    (app_name : String) (config_name : Option String) (cfg : T) (fs : FS) :
    Except ConfyError Unit × FS :=
  match get_configuration_file_path resolve app_name config_name with
  | .error e => (.error e, fs)
  | .ok p => store_path c p cfg fs

/-!
## A concrete model codec

The serialization codecs themselves (the `toml`/`serde_yaml`/`ron` crates)
are external collaborators of the crate, not part of its sources.
-/

/-- Modelled from the spec: the concrete structured-text Codec (the external
`toml` crate selected by the `toml_conf` feature) is not part of the crate's
sources; this is a spec-faithful concrete instance of the Codec contract
for a `Nat`-valued configuration document, printing the value in decimal
ASCII.  `encode` never partially mutates external state and returns a
complete textual document; `decode` accepts exactly the well-formed
documents and rejects everything else with an error. -/
def natToBytes (n : Nat) : List Nat :=
  if n = 0 then [48] else ((Nat.digits 10 n).map (fun d => d + 48)).reverse

/-- Whether a byte is an ASCII decimal digit. -/
def isDigitByte (b : Nat) : Bool := decide (48 ≤ b ∧ b ≤ 57)

/-- Modelled from the spec: the decode direction of the concrete Codec.
A non-empty all-digit document denotes the number it spells in decimal
(most significant byte first); anything else is a deserialization error. -/
def natDecode (l : List Nat) : Except String Nat :=
  if l ≠ [] ∧ l.all isDigitByte = true then
    .ok (Nat.ofDigits 10 ((l.map (fun b => b - 48)).reverse))
  else .error "invalid document"

/-- Modelled from the spec: the active Codec instance (see `natToBytes`,
`natDecode`). -/
def natCodec : Codec Nat where
  encode n := .ok (natToBytes n)
  decode := natDecode

/-- A `Codec` whose encode always fails, mirroring the `CannotSerialize`
type of the crate's test suite. -/
def cannotSerialize : Codec Unit where
  encode _ := .error "cannot serialize CannotSerialize"
  decode _ := .error "cannot deserialize"

/-- A fault-free filesystem holding the given files, for concrete runs. -/
def cleanFS (files : List (FsPath × List Nat)) : FS where
  files := files
  dirs := [[]]
  perms := []
  openReadErr := fun _ => none
  readFileErr := fun _ => false
  mkdirErr := fun _ => false
  openWriteErr := fun _ => false
  setPermsErr := fun _ => false
  writeAllErr := fun _ => false

/-- A concrete config path used by the concrete runs, shaped like the result
of `get_configuration_file_path "example-app" (some "example-config")`. -/
def examplePath : FsPath :=
  ["home", "user", ".config", "example-app", "example-config." ++ EXTENSION]

/-!
## Helper lemmas
-/

/-- A freshly set binding is found. -/
theorem assocFind_set_self {β : Type} (p : FsPath) (v : β)
    (l : List (FsPath × β)) : assocFind p (assocSet p v l) = some v := by
  simp [assocFind, assocSet]

/-- Every byte of an encoded document is an ASCII digit. -/
theorem natToBytes_all_digits (n : Nat) :
    (natToBytes n).all isDigitByte = true := by
  unfold natToBytes
  rcases eq_or_ne n 0 with h | h
  · simp [h, isDigitByte]
  · rw [if_neg h, List.all_eq_true]
    intro x hx
    rw [List.mem_reverse, List.mem_map] at hx
    obtain ⟨d, hd, rfl⟩ := hx
    have hlt : d < 10 := Nat.digits_lt_base (by norm_num) hd
    simp only [isDigitByte, decide_eq_true_eq]
    omega

/-- An encoded document is never empty. -/
theorem natToBytes_ne_nil (n : Nat) : natToBytes n ≠ [] := by
  unfold natToBytes
  rcases eq_or_ne n 0 with h | h
  · simp [h]
  · rw [if_neg h]
    simp [Nat.digits_ne_nil_iff_ne_zero.mpr h]

/-!
## The claims
-/

/-- C7: for all values `v` of the config type, decoding the text produced by
encoding `v` yields a value equal to `v`: `decode(encode(v)) == v` for the
active Codec. -/
theorem natCodec_roundtrip (n : Nat) :
    natCodec.encode n = .ok (natToBytes n) ∧
    natCodec.decode (natToBytes n) = .ok n := by
  refine ⟨rfl, ?_⟩
  show natDecode (natToBytes n) = .ok n
  unfold natDecode
  rw [if_pos ⟨natToBytes_ne_nil n, natToBytes_all_digits n⟩]
  unfold natToBytes
  rcases eq_or_ne n 0 with h | h
  · subst h
    rfl
  · rw [if_neg h, List.map_reverse, List.reverse_reverse, List.map_map]
    have hid : ((fun b => b - 48) ∘ fun d => d + 48) = id := by
      funext d
      simp
    rw [hid, List.map_id, Nat.ofDigits_digits]

/-- C5: `store_path` with a path that has no parent (a filesystem root)
fails immediately with `BadConfigDirectory` and performs no filesystem
mutation: the resulting filesystem state is exactly the initial one. -/
theorem store_path_root_rejected {T : Type} (c : Codec T) (p : FsPath)
    (cfg : T) (fs : FS) (h : p.parent = none) :
    store_path c p cfg fs =
      (.error (.BadConfigDirectory (p.render ++ " is a root or prefix")),
       fs) := by
  unfold store_path do_store
  rw [h]

/-- Witness for C5 at the root path on a fault-free filesystem. -/
theorem store_path_root_rejected_witness :
    FsPath.parent [] = none ∧
    store_path natCodec [] 0 (cleanFS []) =
      (.error (.BadConfigDirectory (FsPath.render [] ++ " is a root or prefix")),
       cleanFS []) :=
  ⟨rfl, store_path_root_rejected natCodec [] 0 (cleanFS []) rfl⟩

/-- C6: `load_path` on a file that exists, opens and reads, but whose
contents fail to decode, returns the decode error as `BadTomlData` and
leaves the filesystem untouched — it never substitutes the default value. -/
theorem load_path_decode_failure_surfaced {T : Type} (c : Codec T) (dflt : T)
    (p : FsPath) (fs : FS) (content : List Nat) (e : String)
    (hfile : assocFind p fs.files = some content)
    (hopen : fs.openReadErr p = none)
    (hread : fs.readFileErr p = false)
    (hdec : c.decode content = .error e) :
    load_path c dflt p fs = (.error (.BadTomlData e), fs) := by
  unfold load_path FS.openRead FS.getString
  rw [hfile, hopen, hread]
  simp [hdec]

/-- Witness for C6: a file holding the single byte 65 (`"A"`), which the
active codec rejects. -/
theorem load_path_decode_failure_surfaced_witness :
    assocFind examplePath (cleanFS [(examplePath, [65])]).files = some [65] ∧
    (cleanFS [(examplePath, [65])]).openReadErr examplePath = none ∧
    (cleanFS [(examplePath, [65])]).readFileErr examplePath = false ∧
    natCodec.decode [65] = .error "invalid document" ∧
    load_path natCodec 0 examplePath (cleanFS [(examplePath, [65])]) =
      (.error (.BadTomlData "invalid document"),
       cleanFS [(examplePath, [65])]) := by
  refine ⟨by simp [assocFind, cleanFS], rfl, rfl, rfl, ?_⟩
  exact load_path_decode_failure_surfaced natCodec 0 examplePath
    (cleanFS [(examplePath, [65])]) [65] "invalid document"
    (by simp [assocFind, cleanFS]) rfl rfl rfl

/-- Helper: when the parent exists and its creation succeeds but encoding
fails, `do_store` returns the serialization error and the only state change
is the created directory tree. -/
theorem do_store_encode_fail {T : Type} (c : Codec T) (p : FsPath) (cfg : T)
    (perms : Option Nat) (fs : FS) (dir : FsPath) (e : String)
    (hpar : p.parent = some dir)
    (hmk : fs.mkdirErr dir = false)
    (henc : c.encode cfg = .error e) :
    do_store c p cfg perms fs =
      (.error (.SerializeTomlError e),
       { fs with dirs := dir.inits ++ fs.dirs }) := by
  unfold do_store FS.createDirAll
  rw [hpar]
  simp [hmk, henc]

/-- C1: in a store call (`store_path` / `store_path_perms` / `do_store`)
whose path has a parent, the value is encoded before the target file is
touched: if encoding fails, the call returns the serialization error and
the file table — in particular the prior contents of the target file —
is byte-for-byte unchanged. -/
theorem store_encode_fail_leaves_files_untouched {T : Type} (c : Codec T)
    (p : FsPath) (cfg : T) (perms : Option Nat) (fs : FS) (dir : FsPath)
    (e : String)
    (hpar : p.parent = some dir)
    (hmk : fs.mkdirErr dir = false)
    (henc : c.encode cfg = .error e) :
    (do_store c p cfg perms fs).1 = .error (.SerializeTomlError e) ∧
    (do_store c p cfg perms fs).2.files = fs.files := by
  rw [do_store_encode_fail c p cfg perms fs dir e hpar hmk henc]
  exact ⟨rfl, rfl⟩

/-- Witness for C1: storing the test suite's `CannotSerialize` value over an
existing document leaves the document in place and reports the
serialization error. -/
theorem store_encode_fail_leaves_files_untouched_witness :
    FsPath.parent examplePath =
      some ["home", "user", ".config", "example-app"] ∧
    (cleanFS [(examplePath, [53])]).mkdirErr
      ["home", "user", ".config", "example-app"] = false ∧
    cannotSerialize.encode () = .error "cannot serialize CannotSerialize" ∧
    ((do_store cannotSerialize examplePath () none
        (cleanFS [(examplePath, [53])])).1 =
      .error (.SerializeTomlError "cannot serialize CannotSerialize") ∧
     (do_store cannotSerialize examplePath () none
        (cleanFS [(examplePath, [53])])).2.files =
      (cleanFS [(examplePath, [53])]).files) :=
  ⟨rfl, rfl, rfl,
   store_encode_fail_leaves_files_untouched cannotSerialize examplePath ()
     none (cleanFS [(examplePath, [53])])
     ["home", "user", ".config", "example-app"]
     "cannot serialize CannotSerialize" rfl rfl rfl⟩

/-- C10: in a store call whose path has a parent, the parent directory tree
is recursively created before encoding is attempted, so a call failing with
a serialization error still leaves the newly created directories behind:
afterwards the directory table holds every ancestor of the parent. -/
theorem store_encode_fail_still_creates_dirs {T : Type} (c : Codec T)
    (p : FsPath) (cfg : T) (perms : Option Nat) (fs : FS) (dir : FsPath)
    (e : String)
    (hpar : p.parent = some dir)
    (hmk : fs.mkdirErr dir = false)
    (henc : c.encode cfg = .error e) :
    (do_store c p cfg perms fs).1 = .error (.SerializeTomlError e) ∧
    (do_store c p cfg perms fs).2.dirs = dir.inits ++ fs.dirs ∧
    dir ∈ (do_store c p cfg perms fs).2.dirs := by
  rw [do_store_encode_fail c p cfg perms fs dir e hpar hmk henc]
  refine ⟨rfl, rfl, ?_⟩
  exact List.mem_append_left _ ((List.mem_inits dir dir).mpr ⟨[], by simp⟩)

/-- Witness for C10: a failing store into a previously empty filesystem
creates the parent directory chain anyway. -/
theorem store_encode_fail_still_creates_dirs_witness :
    FsPath.parent examplePath =
      some ["home", "user", ".config", "example-app"] ∧
    (cleanFS []).mkdirErr ["home", "user", ".config", "example-app"] =
      false ∧
    cannotSerialize.encode () = .error "cannot serialize CannotSerialize" ∧
    ((do_store cannotSerialize examplePath () none (cleanFS [])).1 =
      .error (.SerializeTomlError "cannot serialize CannotSerialize") ∧
     (do_store cannotSerialize examplePath () none (cleanFS [])).2.dirs =
      (["home", "user", ".config", "example-app"] : FsPath).inits ++
        (cleanFS []).dirs ∧
     ["home", "user", ".config", "example-app"] ∈
      (do_store cannotSerialize examplePath () none (cleanFS [])).2.dirs) :=
  ⟨rfl, rfl, rfl,
   store_encode_fail_still_creates_dirs cannotSerialize examplePath () none
     (cleanFS []) ["home", "user", ".config", "example-app"]
     "cannot serialize CannotSerialize" rfl rfl rfl⟩

/-- C9: when encoding succeeds and the open-with-truncate succeeds, a
failure in the later permission-set or write phase leaves the target file
already truncated: its contents after the failed call are empty, so the
prior document's bytes are not preserved (the byte-for-byte survival
guarantee is specific to encoding-phase failures). -/
theorem store_late_phase_fail_truncates {T : Type} (c : Codec T) (p : FsPath)
    (cfg : T) (mode : Nat) (fs : FS) (dir : FsPath) (s : List Nat)
    (hpar : p.parent = some dir)
    (hmk : fs.mkdirErr dir = false)
    (henc : c.encode cfg = .ok s)
    (hopenw : fs.openWriteErr p = false) :
    (fs.setPermsErr p = true →
      (store_path_perms c p cfg mode fs).1 =
        .error (.SetPermissionsFileError .other) ∧
      assocFind p (store_path_perms c p cfg mode fs).2.files = some []) ∧
    (fs.setPermsErr p = false → fs.writeAllErr p = true →
      (store_path_perms c p cfg mode fs).1 =
        .error (.WriteConfigurationFileError .other) ∧
      assocFind p (store_path_perms c p cfg mode fs).2.files = some []) := by
  constructor
  · intro hperm
    unfold store_path_perms do_store FS.createDirAll FS.openWriteTruncate
      FS.setPermissions
    rw [hpar]
    simp [hmk, henc, hopenw, hperm, assocFind_set_self]
  · intro hperm hwrite
    unfold store_path_perms do_store FS.createDirAll FS.openWriteTruncate
      FS.setPermissions FS.writeAll
    rw [hpar]
    simp [hmk, henc, hopenw, hperm, hwrite, assocFind_set_self]

/-- A filesystem holding a prior document where setting permissions on the
config file faults. -/
def permFaultFS : FS :=
  { cleanFS [(examplePath, [53])] with
      setPermsErr := fun q => decide (q = examplePath) }

/-- A filesystem holding a prior document where writing the config file
faults. -/
def writeFaultFS : FS :=
  { cleanFS [(examplePath, [53])] with
      writeAllErr := fun q => decide (q = examplePath) }

/-- Witness for C9, at a permission-phase fault and at a write-phase fault:
in both runs the prior one-byte document `[53]` is gone, the file is empty
after the failed call. -/
theorem store_late_phase_fail_truncates_witness :
    (permFaultFS.setPermsErr examplePath = true ∧
     (store_path_perms natCodec examplePath 7 384 permFaultFS).1 =
       .error (.SetPermissionsFileError .other) ∧
     assocFind examplePath
       (store_path_perms natCodec examplePath 7 384 permFaultFS).2.files =
       some []) ∧
    (writeFaultFS.writeAllErr examplePath = true ∧
     (store_path_perms natCodec examplePath 7 384 writeFaultFS).1 =
       .error (.WriteConfigurationFileError .other) ∧
     assocFind examplePath
       (store_path_perms natCodec examplePath 7 384 writeFaultFS).2.files =
       some []) := by
  constructor
  · refine ⟨rfl, ?_⟩
    exact (store_late_phase_fail_truncates natCodec examplePath 7 384
      permFaultFS ["home", "user", ".config", "example-app"] (natToBytes 7)
      rfl rfl rfl rfl).1 rfl
  · refine ⟨rfl, ?_⟩
    exact (store_late_phase_fail_truncates natCodec examplePath 7 384
      writeFaultFS ["home", "user", ".config", "example-app"] (natToBytes 7)
      rfl rfl rfl rfl).2 rfl rfl

/-- Helper: a fully fault-free `store_path` run writes the encoded document
and creates the parent directory tree. -/
theorem do_store_success {T : Type} (c : Codec T) (p : FsPath) (cfg : T)
    (fs : FS) (dir : FsPath) (s : List Nat)
    (hpar : p.parent = some dir)
    (hmk : fs.mkdirErr dir = false)
    (henc : c.encode cfg = .ok s)
    (hopenw : fs.openWriteErr p = false)
    (hwrite : fs.writeAllErr p = false) :
    do_store c p cfg none fs =
      (.ok (),
       { fs with
          dirs := dir.inits ++ fs.dirs,
          files := assocSet p s (assocSet p [] fs.files) }) := by
  unfold do_store FS.createDirAll FS.openWriteTruncate FS.writeAll
  rw [hpar]
  simp [hmk, henc, hopenw, hwrite]

/-- C2: `load_path` on a path whose file does not exist creates all missing
parent directories, stores `T`'s default value at the path, and returns
that default; loading the same path afterwards returns the default again
(given that the codec round-trips on the default, as the crate's serde
codecs do). -/
theorem load_path_missing_provisions_default {T : Type} (c : Codec T)
    (dflt : T) (p : FsPath) (fs : FS) (dir : FsPath) (s : List Nat)
    (hpar : p.parent = some dir)
    (hmissing : assocFind p fs.files = none)
    (hmk : fs.mkdirErr dir = false)
    (hopenw : fs.openWriteErr p = false)
    (hwrite : fs.writeAllErr p = false)
    (henc : c.encode dflt = .ok s)
    (hdec : c.decode s = .ok dflt)
    (hopenr : fs.openReadErr p = none)
    (hread : fs.readFileErr p = false) :
    (load_path c dflt p fs).1 = .ok dflt ∧
    (∀ d ∈ dir.inits, d ∈ (load_path c dflt p fs).2.dirs) ∧
    assocFind p (load_path c dflt p fs).2.files = some s ∧
    (load_path c dflt p (load_path c dflt p fs).2).1 = .ok dflt := by
  have hstore := do_store_success c p dflt
    { fs with dirs := dir.inits ++ fs.dirs } dir s hpar hmk henc hopenw
    hwrite
  have h1 : load_path c dflt p fs =
      (.ok dflt,
       { fs with
          dirs := dir.inits ++ (dir.inits ++ fs.dirs),
          files := assocSet p s (assocSet p [] fs.files) }) := by
    unfold load_path FS.openRead FS.createDirAll store_path
    rw [hmissing, hpar]
    simp only [hmk, Bool.false_eq_true, if_false, hstore]
  refine ⟨by rw [h1], ?_, ?_, ?_⟩
  · intro d hd
    rw [h1]
    exact List.mem_append_left _ hd
  · rw [h1]
    exact assocFind_set_self p s (assocSet p [] fs.files)
  · rw [h1]
    simp [load_path, FS.openRead, FS.getString, assocFind_set_self, hopenr,
      hread, hdec]

/-- Witness for C2 on an empty fault-free filesystem: the default `0` is
provisioned, the parent chain exists afterwards, and a second load returns
the default again. -/
theorem load_path_missing_provisions_default_witness :
    FsPath.parent examplePath =
      some ["home", "user", ".config", "example-app"] ∧
    assocFind examplePath (cleanFS []).files = none ∧
    natCodec.encode 0 = .ok (natToBytes 0) ∧
    natCodec.decode (natToBytes 0) = .ok 0 ∧
    ((load_path natCodec 0 examplePath (cleanFS [])).1 = .ok 0 ∧
     (∀ d ∈ (["home", "user", ".config", "example-app"] : FsPath).inits,
        d ∈ (load_path natCodec 0 examplePath (cleanFS [])).2.dirs) ∧
     assocFind examplePath
       (load_path natCodec 0 examplePath (cleanFS [])).2.files =
       some (natToBytes 0) ∧
     (load_path natCodec 0 examplePath
        (load_path natCodec 0 examplePath (cleanFS [])).2).1 = .ok 0) :=
  ⟨rfl, rfl, rfl, rfl,
   load_path_missing_provisions_default natCodec 0 examplePath (cleanFS [])
     ["home", "user", ".config", "example-app"] (natToBytes 0)
     rfl rfl rfl rfl rfl rfl rfl rfl rfl⟩

/-- C3: `load_or_else` on a file that exists and reads but whose contents do
not decode computes the fallback, persists it over the corrupt file, and
returns it; a subsequent `load_path` of the same path returns an equal
value (given that the codec round-trips on the fallback value). -/
theorem load_or_else_corrupt_repairs {T : Type} (c : Codec T) (p : FsPath)
    (op : Unit → T) (dflt : T) (fs : FS) (dir : FsPath)
    (content s : List Nat) (e : String)
    (hpar : p.parent = some dir)
    (hfile : assocFind p fs.files = some content)
    (hopenr : fs.openReadErr p = none)
    (hread : fs.readFileErr p = false)
    (hbad : c.decode content = .error e)
    (hmk : fs.mkdirErr dir = false)
    (hopenw : fs.openWriteErr p = false)
    (hwrite : fs.writeAllErr p = false)
    (henc : c.encode (op ()) = .ok s)
    (hdec : c.decode s = .ok (op ())) :
    (load_or_else c p op fs).1 = .ok (op ()) ∧
    assocFind p (load_or_else c p op fs).2.files = some s ∧
    (load_path c dflt p (load_or_else c p op fs).2).1 = .ok (op ()) := by
  have hstore := do_store_success c p (op ())
    { fs with dirs := dir.inits ++ fs.dirs } dir s hpar hmk henc hopenw
    hwrite
  have h1 : load_or_else c p op fs =
      (.ok (op ()),
       { fs with
          dirs := dir.inits ++ (dir.inits ++ fs.dirs),
          files := assocSet p s (assocSet p [] fs.files) }) := by
    unfold load_or_else load_value FS.openRead FS.getString FS.createDirAll
      store_path
    rw [hfile, hopenr, hpar]
    simp only [hread, Bool.false_eq_true, if_false, hbad, hmk, hstore]
  refine ⟨by rw [h1], ?_, ?_⟩
  · rw [h1]
    exact assocFind_set_self p s (assocSet p [] fs.files)
  · rw [h1]
    simp [load_path, FS.openRead, FS.getString, assocFind_set_self, hopenr,
      hread, hdec]

/-- Witness for C3: a corrupt one-byte document `"A"` is replaced by the
encoded fallback `0`, and a second load returns the fallback. -/
theorem load_or_else_corrupt_repairs_witness :
    assocFind examplePath (cleanFS [(examplePath, [65])]).files =
      some [65] ∧
    natCodec.decode [65] = .error "invalid document" ∧
    natCodec.encode 0 = .ok (natToBytes 0) ∧
    natCodec.decode (natToBytes 0) = .ok 0 ∧
    ((load_or_else natCodec examplePath (fun _ => 0)
        (cleanFS [(examplePath, [65])])).1 = .ok 0 ∧
     assocFind examplePath
       (load_or_else natCodec examplePath (fun _ => 0)
         (cleanFS [(examplePath, [65])])).2.files = some (natToBytes 0) ∧
     (load_path natCodec 5 examplePath
        (load_or_else natCodec examplePath (fun _ => 0)
          (cleanFS [(examplePath, [65])])).2).1 = .ok 0) :=
  ⟨by simp [assocFind, cleanFS], rfl, rfl, rfl,
   load_or_else_corrupt_repairs natCodec examplePath (fun _ => 0) 5
     (cleanFS [(examplePath, [65])])
     ["home", "user", ".config", "example-app"] [65] (natToBytes 0)
     "invalid document" rfl (by simp [assocFind, cleanFS]) rfl rfl rfl rfl
     rfl rfl rfl rfl⟩

/-- A filesystem where the config file exists but reading it faults. -/
def readFaultFS : FS :=
  { cleanFS [(examplePath, [53])] with
      readFileErr := fun q => decide (q = examplePath) }

/-- C4, counterexample: the claim says a read failure on a present file
(`ReadConfigurationFileError`) is surfaced by `load_or_else` and not
recovered by computing the fallback.  On this concrete input the file is
present and its read faults, yet the call returns the fallback `0` rather
than any error: `load_from_file().or_else(|_| load_value())` catches the
read error too. -/
theorem load_or_else_read_fault_recovered_counterexample :
    assocFind examplePath readFaultFS.files = some [53] ∧
    readFaultFS.readFileErr examplePath = true ∧
    (load_or_else natCodec examplePath (fun _ => 0) readFaultFS).1 =
      .ok 0 ∧
    (load_or_else natCodec examplePath (fun _ => 0) readFaultFS).1 ≠
      .error (.ReadConfigurationFileError .other) := by
  refine ⟨rfl, rfl, rfl, ?_⟩
  intro h
  exact Except.noConfusion h

/-- C4 (amended): `load_or_else` surfaces an open failure of a non-missing
kind as `GeneralLoadError` without touching the fallback; but a failure of
the read step on a successfully opened file is locally recovered exactly
like a decode failure: the call proceeds as `load_value`, computing and
persisting the fallback. -/
theorem load_or_else_fault_handling {T : Type} (c : Codec T) (p : FsPath)
    (op : Unit → T) (fs : FS) (content : List Nat) (k : IoErr)
    (hfile : assocFind p fs.files = some content) :
    (fs.openReadErr p = some k → k ≠ .notFound →
      load_or_else c p op fs = (.error (.GeneralLoadError k), fs)) ∧
    (fs.openReadErr p = none → fs.readFileErr p = true →
      load_or_else c p op fs = load_value c p op fs) := by
  constructor
  · intro hk hknf
    unfold load_or_else FS.openRead
    rw [hfile, hk]
    cases k with
    | notFound => exact absurd rfl hknf
    | permissionDenied => rfl
    | other => rfl
  · intro hopenr hread
    unfold load_or_else FS.openRead FS.getString
    rw [hfile, hopenr, hread]
    rfl

/-- A filesystem where opening the config file fails with a permission
fault. -/
def openFaultFS : FS :=
  { cleanFS [(examplePath, [53])] with
      openReadErr := fun q =>
        if q = examplePath then some .permissionDenied else none }

/-- Witness for C4 (amended), at an open fault and at a read fault. -/
theorem load_or_else_fault_handling_witness :
    (assocFind examplePath openFaultFS.files = some [53] ∧
     openFaultFS.openReadErr examplePath = some .permissionDenied ∧
     load_or_else natCodec examplePath (fun _ => 0) openFaultFS =
       (.error (.GeneralLoadError .permissionDenied), openFaultFS)) ∧
    (assocFind examplePath readFaultFS.files = some [53] ∧
     readFaultFS.openReadErr examplePath = none ∧
     readFaultFS.readFileErr examplePath = true ∧
     load_or_else natCodec examplePath (fun _ => 0) readFaultFS =
       load_value natCodec examplePath (fun _ => 0) readFaultFS) :=
  ⟨⟨rfl, rfl,
    (load_or_else_fault_handling natCodec examplePath (fun _ => 0)
      openFaultFS [53] .permissionDenied rfl).1 rfl (by decide)⟩,
   ⟨rfl, rfl, rfl,
    (load_or_else_fault_handling natCodec examplePath (fun _ => 0)
      readFaultFS [53] .permissionDenied rfl).2 rfl rfl⟩⟩

/-- C8: `get_configuration_file_path` substitutes the sentinel name
`"default-config"` for an absent `config_name`, and in every case the
returned path is the resolved configuration directory with
`"{config_name}.{extension}"` appended, the extension being the one fixed
by the compiled-in codec. -/
theorem get_configuration_file_path_shape (resolve : String → Option FsPath)
    (app_name : String) (dir : FsPath) (name : String)
    (h : resolve app_name = some dir) :
    get_configuration_file_path resolve app_name none =
      .ok (dir ++ ["default-config" ++ "." ++ EXTENSION]) ∧
    get_configuration_file_path resolve app_name (some name) =
      .ok (dir ++ [name ++ "." ++ EXTENSION]) := by
  unfold get_configuration_file_path
  rw [h]
  exact ⟨rfl, rfl⟩

/-- A concrete directory-resolution collaborator for the witness runs. -/
def exResolve : String → Option FsPath := fun a =>
  if a = "example-app" then some ["home", "user", ".config", "example-app"]
  else none

/-- Witness for C8 at a concrete resolver, application and config name. -/
theorem get_configuration_file_path_shape_witness :
    exResolve "example-app" =
      some ["home", "user", ".config", "example-app"] ∧
    (get_configuration_file_path exResolve "example-app" none =
      .ok (["home", "user", ".config", "example-app"] ++
        ["default-config" ++ "." ++ EXTENSION]) ∧
     get_configuration_file_path exResolve "example-app"
        (some "example-config") =
      .ok (["home", "user", ".config", "example-app"] ++
        ["example-config" ++ "." ++ EXTENSION])) :=
  ⟨rfl,
   get_configuration_file_path_shape exResolve "example-app"
     ["home", "user", ".config", "example-app"] "example-config" rfl⟩
